import Mathlib

set_option maxHeartbeats 1000000

/-! Verification development for the `combi` math-genealogy scraper.

The development shallowly embeds the program's three source files:

* `src/parser.rs` — HTML extraction (`Parser` namespace below).  HTML trees
  are modelled by `Parser.HNode`; the CSS selectors actually used by the
  source (`h2`, `div > span`, `tr`, `td`, `a`, `table`, `#thesisTitle`,
  `div > img`) are modelled as document-order (depth-first, pre-order)
  traversals.  A Rust `panic!`/`unwrap` abort in `scrape_students` is
  modelled as the distinguished outcome `none` / `PErr.panicked`, kept
  separate from a returned `Result::Err` (`PErr.extraction`).
* `src/main.rs` — database layer, retrying fetcher, visit logic and
  scheduler loop.  The Postgres tables are lists of rows; every
  `INSERT ... ON CONFLICT DO NOTHING` becomes an append guarded by a
  conflict-key lookup.  The SQL schema (migrations) is not part of the
  sources; the conflict keys are modelled from the documented schema:
  `mathematicians` keyed by `id`, `schools`/`countries` by `name`,
  `school_locations` by `(school, country)`, `dissertations` by
  `(title, author)`, `graduation_records` by the mathematician,
  `advisor_relations` by `(advisor, advisee)`.
* Fallible effects: a network fetch is an oracle `Int → Except Unit Page`
  giving the outcome of `get_page` per identifier; a transport is an
  oracle `Nat → Except Unit Page` giving the outcome of each attempt;
  database statement failures inside the ingestion transaction are driven
  by a schedule `Nat → Bool` telling which statement (in issue order)
  errors.  A transaction that errors is dropped without commit, so the
  caller keeps the database state from before the transaction began.
-/

namespace Parser

/-- HTML node: an element with a tag, attribute list and children, or a
text node.  The `id` attribute is an ordinary attribute. -/
inductive HNode where
  | elem (tag : String) (attrs : List (String × String)) (children : List HNode)
  | text (s : String)
deriving Repr

mutual

/-- All elements satisfying a predicate on (tag, attrs), in document
(depth-first pre-) order; models `Html::select` / `ElementRef::select`
for simple selectors. -/
def selElems (p : String → List (String × String) → Bool) : HNode → List HNode
  | .text _ => []
  | .elem t a ch => (if p t a then [HNode.elem t a ch] else []) ++ selElemsList p ch

def selElemsList (p : String → List (String × String) → Bool) : List HNode → List HNode
  | [] => []
  | n :: ns => selElems p n ++ selElemsList p ns

end

/-- Attribute lookup, models `ElementRef::attr`. -/
def getAttr (a : String) : HNode → Option String
  | .text _ => none
  | .elem _ attrs _ => (attrs.find? (fun q => q.1 == a)).map (fun q => q.2)

/-- Tag-name selector such as `h2`, `table`, `tr`, `td`, `a`. -/
def selTag (tg : String) : HNode → List HNode :=
  selElems (fun t _ => t == tg)

/-- Id selector such as `#thesisTitle`. -/
def selId (i : String) : HNode → List HNode :=
  selElems (fun _ a => (a.find? (fun q => q.1 == "id")).map (fun q => q.2) == some i)

/-- Does this node carry the given tag? -/
def tagIs (tg : String) : HNode → Bool
  | .elem t _ _ => t == tg
  | .text _ => false

mutual

/-- Child-combinator selector (`parent > child`), in document order;
models selectors `div > span` and `div > img`. -/
def selChild (pt ct : String) : HNode → List HNode
  | .text _ => []
  | .elem t _ ch => selChildList pt ct (t == pt) ch

def selChildList (pt ct : String) : Bool → List HNode → List HNode
  | _, [] => []
  | pm, n :: ns =>
      (if pm && tagIs ct n then [n] else []) ++ selChild pt ct n ++ selChildList pt ct pm ns

end

mutual

/-- Descendant text nodes in document order; models `ElementRef::text`. -/
def texts : HNode → List String
  | .text s => [s]
  | .elem _ _ ch => textsList ch

def textsList : List HNode → List String
  | [] => []
  | n :: ns => texts n ++ textsList ns

end

/-- Whitespace trimming on character lists (both ends). -/
def trimChars (l : List Char) : List Char :=
  ((l.dropWhile Char.isWhitespace).reverse.dropWhile Char.isWhitespace).reverse

/-- Rust `str::trim`. -/
def rustTrim (s : String) : String :=
  String.mk (trimChars s.toList)

/-- Decimal value of a digit run. -/
def digitsToNat (l : List Char) : Nat :=
  l.foldl (fun a c => 10 * a + (c.toNat - 48)) 0

/-- Rust `str::parse::<u16>`: optional leading `+`, at least one digit,
bounded by the `u16` range. -/
def parseU16 (s : String) : Option Nat :=
  match s.toList with
  | [] => none
  | c :: cs =>
    let l := if c = '+' then cs else c :: cs
    if !l.isEmpty && l.all Char.isDigit then
      if digitsToNat l ≤ 65535 then some (digitsToNat l) else none
    else none

/-- Rust `str::parse::<i32>` on an all-digit capture: at least one
digit, bounded by the `i32` range. -/
def parseI32 (s : String) : Option Int :=
  let l := s.toList
  if !l.isEmpty && l.all Char.isDigit then
    if digitsToNat l ≤ 2147483647 then some ((digitsToNat l : Nat) : Int) else none
  else none

/-- Maximal leading run of ASCII digits. -/
def digitRun : List Char → List Char
  | [] => []
  | c :: cs => if c.isDigit then c :: digitRun cs else []

/-- Does the list start with `id.php?id=` followed by at least one digit? -/
def idAtFront (l : List Char) : Bool :=
  decide (l.take 10 = "id.php?id=".toList) &&
    (match l.drop 10 with
     | d :: _ => d.isDigit
     | [] => false)

/-- Leftmost match of the regex `id\.php\?id=(\d+)`: scan for the literal
`id.php?id=` followed by a digit and capture the maximal digit run. -/
def idCaptureAux : List Char → Option (List Char)
  | [] => none
  | c :: cs =>
      if idAtFront (c :: cs) then some (digitRun ((c :: cs).drop 10))
      else idCaptureAux cs

/-- First capture group of `ID_RE` applied to an `href`, as a string. -/
def idCapture (s : String) : Option String :=
  (idCaptureAux s.toList).map (fun l => String.mk l)

/-- The maximal non-whitespace runs (words) of a character list, the
first argument; the second accumulates the current word reversed. -/
def wordsAux : List Char → List Char → List String
  | [], cur => if cur.isEmpty then [] else [String.mk cur.reverse]
  | c :: cs, cur =>
    if c.isWhitespace then
      if cur.isEmpty then wordsAux cs [] else String.mk cur.reverse :: wordsAux cs []
    else wordsAux cs (c :: cur)

/-- Rust `s.trim().split_whitespace().collect::<Vec<_>>().join(" ")`:
the whitespace-separated words joined by single spaces. -/
def squashWhitespace (s : String) : String :=
  String.intercalate " " (wordsAux s.toList [])

/-- Extraction failure modes: `extraction` is a returned `Result::Err`
(the `eyre!("Name not found")` of `scrape_mathematician`); `panicked`
marks the `unwrap()` abort in `scrape_students` on a student row whose
first cell has no anchor — the Rust function never returns in that case. -/
inductive PErr where
  | extraction
  | panicked
deriving DecidableEq, Repr

/-- Mathematician as constructed by `parser.rs` (`id` is fixed to 0). -/
structure Mathematician where
  id : Int
  name : String
deriving DecidableEq, Repr

/-- Dissertation as constructed by `parser.rs::scrape`. -/
structure Dissertation where
  title : String
  author : Mathematician
deriving DecidableEq, Repr

/-- Graduation record as constructed by `parser.rs::scrape`; school and
country are carried by name. -/
structure GraduationRecord where
  mathematician : Mathematician
  country : Option String
  school : String
  year : Nat
deriving DecidableEq, Repr

/-- Scrape record as defined in `parser.rs`. -/
structure ScrapeRecord where
  mathematician : Mathematician
  students_ids : List Int
  dissertation : Option Dissertation
  graduation_record : Option GraduationRecord
deriving DecidableEq, Repr

/-- Embeds `parser.rs::scrape_mathematician`: the first text node of the
first `h2` element, whitespace-normalized; errors when either is absent. -/
def scrape_mathematician (page : HNode) : Except PErr Mathematician :=
  match (selTag "h2" page).head? with
  | none => .error .extraction
  | some h =>
    match (texts h).head? with
    | none => .error .extraction
    | some t => .ok { id := 0, name := squashWhitespace t }

/-- Embeds `parser.rs::scrape_dissertation`: first text node of the
`#thesisTitle` element, trimmed; empty-after-trim yields `none`. -/
def scrape_dissertation (page : HNode) : Option String :=
  match (selId "thesisTitle" page).head? with
  | none => none
  | some th =>
    match (texts th).head? with
    | none => none
    | some t => if rustTrim t = "" then none else some (rustTrim t)

/-- Embeds `parser.rs::parse_country`: `alt` attribute of the first
`div > img` element. -/
def parse_country (page : HNode) : Option String :=
  match (selChild "div" "img" page).head? with
  | none => none
  | some img => getAttr "alt" img

/-- Embeds `parser.rs::parse_school`: in the first `div > span` element,
the text node right after the one that trims to `Ph.D.`; pairs it with
the page-level country. -/
def parse_school (page : HNode) : Option (String × Option String) :=
  match (selChild "div" "span" page).head? with
  | none => none
  | some sp =>
    match (((texts sp).dropWhile (fun t => rustTrim t ≠ "Ph.D.")).drop 1).head? with
    | none => none
    | some nm => some (rustTrim nm, parse_country page)

/-- Embeds `parser.rs::parse_year`: first trimmed text of the first
`div > span` element that parses as a `u16`. -/
def parse_year (page : HNode) : Option Nat :=
  match (selChild "div" "span" page).head? with
  | none => none
  | some sp => ((texts sp).map (fun t => parseU16 (rustTrim t))).reduceOption.head?

/-- One student row of the student table: `none` models the `unwrap()`
panic (first cell has no anchor); `some none` a row skipped by
`filter_map` (no first cell, no `href`, no id match, or `i32` overflow);
`some (some i)` a parsed student identifier. -/
def studentRow (row : HNode) : Option (Option Int) :=
  match (selTag "td" row).head? with
  | none => some none
  | some nameTag =>
    match (selTag "a" nameTag).head? with
    | none => none
    | some anchor =>
      match getAttr "href" anchor with
      | none => some none
      | some href => some ((idCapture href).bind parseI32)

/-- Drives `filter_map` over the student rows; any panicking row aborts
the whole collection. -/
def collectStudents : List HNode → Option (List Int)
  | [] => some []
  | r :: rs =>
    match studentRow r with
    | none => none
    | some none => collectStudents rs
    | some (some i) => (collectStudents rs).map (fun l => i :: l)

/-- Embeds `parser.rs::scrape_students`: first `table` of the page (no
table means no students), drop the header row, collect the parsed
identifiers; `none` models the panic. -/
def scrape_students (page : HNode) : Option (List Int) :=
  match (selTag "table" page).head? with
  | none => some []
  | some tbl => collectStudents ((selTag "tr" tbl).drop 1)

/-- Embeds `parser.rs::scrape`: name (mandatory), dissertation, students,
then the graduation record requiring both a school and a year. -/
def scrape (page : HNode) : Except PErr ScrapeRecord := do
  let m ← scrape_mathematician page
  let d := scrape_dissertation page
  let sids ← match scrape_students page with
    | none => Except.error PErr.panicked
    | some l => Except.ok l
  let g := match parse_school page, parse_year page with
    | some (sc, co), some y =>
        some { mathematician := m, country := co, school := sc, year := y }
    | _, _ => none
  Except.ok
    { mathematician := m
      students_ids := sids
      dissertation := d.map (fun t => { title := t, author := m })
      graduation_record := g }

end Parser

/-- Student stub as consumed by `main.rs` (`student.name`, `student.id`). -/
structure Student where
  name : String
  id : Option Int
deriving DecidableEq, Repr

/-- Scrape record as consumed by `main.rs` (`advisor.name`,
`advisor.country`, `advisor.dissertation`, `advisor.school`,
`advisor.year`, `advisor.students`). -/
structure ScrapeRecord where
  name : String
  country : Option String
  dissertation : Option String
  school : Option String
  year : Option Nat
  students : List Student
deriving DecidableEq, Repr

/-- The relational store: one list of rows per table, in insertion order.
Conflict keys follow the documented schema (see the header comment). -/
structure DB where
  mathematicians : List (Int × String)
  schools : List String
  countries : List String
  school_locations : List (String × String)
  dissertations : List (String × Int)
  graduation_records : List (Int × String × Nat)
  advisor_relations : List (Int × Int)
deriving DecidableEq, Repr

/-- The empty database. -/
def DB.empty : DB := ⟨[], [], [], [], [], [], []⟩

/-- Embeds `main.rs::insert_mathematician`:
`INSERT INTO mathematicians(id, name) ... ON CONFLICT DO NOTHING`,
conflict key `id`. -/
def insert_mathematician (id : Int) (nm : String) (db : DB) : DB :=
  { db with mathematicians :=
      if db.mathematicians.any (fun r => r.1 == id) then db.mathematicians
      else db.mathematicians ++ [(id, nm)] }

/-- Embeds `main.rs::insert_school`, conflict key `name`. -/
def insert_school (s : String) (db : DB) : DB :=
  { db with schools :=
      if db.schools.any (fun r => r == s) then db.schools
      else db.schools ++ [s] }

/-- Embeds `main.rs::insert_country`, conflict key `name`. -/
def insert_country (c : String) (db : DB) : DB :=
  { db with countries :=
      if db.countries.any (fun r => r == c) then db.countries
      else db.countries ++ [c] }

/-- Embeds `main.rs::insert_school_location`, conflict key
`(school, country)`. -/
def insert_school_location (s c : String) (db : DB) : DB :=
  { db with school_locations :=
      if db.school_locations.any (fun r => r == (s, c)) then db.school_locations
      else db.school_locations ++ [(s, c)] }

/-- Embeds `main.rs::insert_dissertation`, conflict key `(title, author)`. -/
def insert_dissertation (t : String) (a : Int) (db : DB) : DB :=
  { db with dissertations :=
      if db.dissertations.any (fun r => r == (t, a)) then db.dissertations
      else db.dissertations ++ [(t, a)] }

/-- Embeds the row insert of `main.rs::insert_grad_record`
(`INSERT INTO graduation_records(mathematician, school, year)`),
conflict key the mathematician (at most one record per node). -/
def insert_graduation_row (m : Int) (s : String) (y : Nat) (db : DB) : DB :=
  { db with graduation_records :=
      if db.graduation_records.any (fun r => r.1 == m) then db.graduation_records
      else db.graduation_records ++ [(m, s, y)] }

/-- Embeds `main.rs::insert_adivsor_relation` (source spelling),
conflict key `(advisor, advisee)`. -/
def insert_adivsor_relation (advisor advisee : Int) (db : DB) : DB :=
  { db with advisor_relations :=
      if db.advisor_relations.any (fun r => r == (advisor, advisee)) then db.advisor_relations
      else db.advisor_relations ++ [(advisor, advisee)] }

/-- Embeds `main.rs::has_mathematician`:
`SELECT COUNT(1) FROM mathematicians WHERE id = $1` compared to 1. -/
def has_mathematician (db : DB) (id : Int) : Bool :=
  db.mathematicians.countP (fun r => r.1 == id) == 1

/-- Embeds `main.rs::has_advisor_advisee`:
`SELECT COUNT(*) FROM advisor_relations WHERE advisor = $1 AND advisee = $2`
compared to 1. -/
def has_advisor_advisee (db : DB) (advisor advisee : Int) : Bool :=
  db.advisor_relations.countP (fun r => r.1 == advisor && r.2 == advisee) == 1

/-- The two SQL statements issued per student stub inside the ingestion
transaction (`main.rs::insert_record`, loop over `advisor.students`):
stubs without an identifier issue nothing. -/
def studentStmts (aid : Int) : List Student → List (DB → DB)
  | [] => []
  | s :: ss =>
    match s.id with
    | none => studentStmts aid ss
    | some sid =>
        insert_mathematician sid s.name :: insert_adivsor_relation aid sid :: studentStmts aid ss

/-- The SQL statements `main.rs::insert_record` issues before the
student loop, in source order: mathematician; country if present;
dissertation if present; school (plus location when the country is also
present) if present; when both school and year are present,
`insert_grad_record` = school insert then graduation row. -/
def preStmts (aid : Int) (adv : ScrapeRecord) : List (DB → DB) :=
  [insert_mathematician aid adv.name]
  ++ (match adv.country with
      | some co => [insert_country co]
      | none => [])
  ++ (match adv.dissertation with
      | some t => [insert_dissertation t aid]
      | none => [])
  ++ (match adv.school, adv.country with
      | some sc, some co => [insert_school sc, insert_school_location sc co]
      | some sc, none => [insert_school sc]
      | none, _ => [])
  ++ (match adv.school, adv.year with
      | some sc, some y => [insert_school sc, insert_graduation_row aid sc y]
      | _, _ => [])

/-- The full sequence of SQL statements issued by
`main.rs::insert_record`, in source order: the pre-student statements,
the two statements per identified student stub, finally the `COMMIT`
(modelled as the identity statement, since committing is itself
fallible). -/
def recordStmts (aid : Int) (adv : ScrapeRecord) : List (DB → DB) :=
  preStmts aid adv ++ studentStmts aid adv.students ++ [fun d => d]

/-- Runs a statement list inside a transaction: the schedule `fail` says
which statement (by issue index) errors; an error aborts the run. -/
def runStmts (fail : Nat → Bool) : List (DB → DB) → Nat → DB → Except Unit (Nat × DB)
  | [], c, d => .ok (c, d)
  | f :: fs, c, d => if fail c then .error () else runStmts fail fs (c + 1) (f d)

/-- Embeds `main.rs::insert_record`: run all statements of the record
inside one transaction; on any error the transaction is dropped without
commit, so the pre-transaction database remains the observable state. -/
def insert_record (fail : Nat → Bool) (db : DB) (aid : Int) (adv : ScrapeRecord) :
    Except Unit DB :=
  (runStmts fail (recordStmts aid adv) 0 db).map (fun r => r.2)

/-- The database produced by a fully successful ingestion transaction. -/
def ingestPure (aid : Int) (adv : ScrapeRecord) (db : DB) : DB :=
  (recordStmts aid adv).foldl (fun d f => f d) db

/-- Embeds the retry loop of `main.rs::Scraper::get_page`: `retry`
starts at 3; when it reaches 0 the fetch fails; otherwise attempt the
transport, break on success, decrement and go around on failure.  Also
counts the transport attempts made. -/
def get_pageLoop {Page : Type} (transport : Nat → Except Unit Page) :
    Nat → Nat → Except Unit Page × Nat
  | 0, _ => (.error (), 0)
  | r + 1, i =>
    match transport i with
    | .ok p => (.ok p, 1)
    | .error _ =>
        let t := get_pageLoop transport r (i + 1)
        (t.1, t.2 + 1)

/-- Result of `get_page` on a given transport. -/
def get_page {Page : Type} (transport : Nat → Except Unit Page) : Except Unit Page :=
  (get_pageLoop transport 3 0).1

/-- Number of transport attempts `get_page` makes on a given transport. -/
def get_pageCalls {Page : Type} (transport : Nat → Except Unit Page) : Nat :=
  (get_pageLoop transport 3 0).2

/-- How a visit ends when it does not commit: fetch exhaustion or
extraction failure on the main document, the same for a neighbor
document, or a database error during the ingestion transaction. -/
inductive VisitError where
  | mainFetch
  | mainExtract
  | neighborFetch
  | neighborExtract
  | ingest
deriving DecidableEq, Repr

/-- Decidable equality for `Except`, used to evaluate concrete visit
outcomes. -/
instance {ε α : Type} [DecidableEq ε] [DecidableEq α] : DecidableEq (Except ε α) := fun x y =>
  match x, y with
  | .ok a, .ok b =>
      if h : a = b then .isTrue (by rw [h]) else .isFalse (fun hh => h (Except.ok.inj hh))
  | .error a, .error b =>
      if h : a = b then .isTrue (by rw [h]) else .isFalse (fun hh => h (Except.error.inj hh))
  | .ok _, .error _ => .isFalse (fun hh => Except.noConfusion hh)
  | .error _, .ok _ => .isFalse (fun hh => Except.noConfusion hh)

/-- Outcome of one visit: how it ended, the observable database
afterwards, and the identifiers whose pages were fetched, in order. -/
structure VisitResult where
  outcome : Except VisitError Unit
  db : DB
  fetched : List Int
deriving Repr

/-- Embeds the neighbor loop of `main.rs::Scraper::scrape`: skip stubs
without an identifier; skip a stub when the node already exists and the
edge already exists; otherwise fetch and extract the neighbor page,
collecting the extracted records (the `advisees` vector).  The database
is read-only here, so the entry state is threaded unchanged. -/
def visitStudents {Page : Type} (pages : Int → Except Unit Page)
    (extract : Page → Except Unit ScrapeRecord) (db : DB) (aid : Int) :
    List Student → Except VisitError (List ScrapeRecord) × List Int
  | [] => (.ok [], [])
  | s :: ss =>
    match s.id with
    | none => visitStudents pages extract db aid ss
    | some sid =>
      if has_mathematician db sid && has_advisor_advisee db aid sid then
        visitStudents pages extract db aid ss
      else
        match pages sid with
        | .error _ => (.error .neighborFetch, [sid])
        | .ok pg =>
          match extract pg with
          | .error _ => (.error .neighborExtract, [sid])
          | .ok rec =>
            let r := visitStudents pages extract db aid ss
            (r.1.map (fun l => rec :: l), sid :: r.2)

/-- Embeds `main.rs::Scraper::scrape`.  `pages` gives the outcome of
`get_page` per identifier and `extract` the outcome of `parser::scrape`
per page.  Steps, in source order: early return when the node exists;
fetch and extract the main page; insert the node row directly on the
pool, outside any transaction; run the neighbor loop; then ingest the
main record in one transaction. -/
def scrape {Page : Type} (pages : Int → Except Unit Page)
    (extract : Page → Except Unit ScrapeRecord) (fail : Nat → Bool)
    (db : DB) (id : Int) : VisitResult :=
  if has_mathematician db id then ⟨.ok (), db, []⟩
  else
    match pages id with
    | .error _ => ⟨.error .mainFetch, db, [id]⟩
    | .ok pg =>
      match extract pg with
      | .error _ => ⟨.error .mainExtract, db, [id]⟩
      | .ok advisor =>
        let db1 := insert_mathematician id advisor.name db
        let vs := visitStudents pages extract db1 id advisor.students
        match vs.1 with
        | .error e => ⟨.error e, db1, id :: vs.2⟩
        | .ok _ =>
          match insert_record fail db1 id advisor with
          | .error _ => ⟨.error .ingest, db1, id :: vs.2⟩
          | .ok db2 => ⟨.ok (), db2, id :: vs.2⟩

/-- Embeds one iteration of the candidate loop in `main.rs::main`: check
`has_mathematician` and only dispatch a visit when it is false.  Returns
the database afterwards and the identifiers fetched by this step. -/
def schedulerStep {Page : Type} (pages : Int → Except Unit Page)
    (extract : Page → Except Unit ScrapeRecord) (fail : Nat → Bool)
    (db : DB) (id : Int) : DB × List Int :=
  if has_mathematician db id then (db, [])
  else
    let r := scrape pages extract fail db id
    (r.db, r.fetched)

/-- Embeds the candidate loop of `main.rs::main` over a list of
candidate identifiers (the source uses `1..=307433`), sequentially. -/
def schedulerRun {Page : Type} (pages : Int → Except Unit Page)
    (extract : Page → Except Unit ScrapeRecord) (fail : Nat → Bool) :
    List Int → DB → DB × List Int
  | [], db => (db, [])
  | i :: is, db =>
    let s := schedulerStep pages extract fail db i
    let rest := schedulerRun pages extract fail is s.1
    (rest.1, s.2 ++ rest.2)

/-- Embeds `ingest` applied `n` times in a row with the same record
(each run is one `insert_record` transaction). -/
def ingestN (fail : Nat → Bool) (aid : Int) (adv : ScrapeRecord) :
    Nat → DB → Except Unit DB
  | 0, db => .ok db
  | n + 1, db =>
    match insert_record fail db aid adv with
    | .error e => .error e
    | .ok db1 => ingestN fail aid adv n db1

/-- Number of `(advisor, advisee)` rows for a given pair. -/
def edgeCount (db : DB) (a b : Int) : Nat :=
  db.advisor_relations.countP (fun r => r == (a, b))

/-- Embeds the backoff computation in `main.rs::Scraper::get_page`:
`factor` is drawn from `Uniform::new(10.0, 30.0)` and the sleep is
`Duration::from_millis((1000. * factor) as u64)`; the float draw is
modelled as a rational in `[10, 30)`. -/
def backoff_millis (factor : ℚ) : ℕ :=
  (Int.floor ((1000 : ℚ) * factor)).toNat

/-- The backoff slept after failed attempt number `attempt`: the source
computes the duration from the sampled factor alone, the retry counter
does not enter the computation. -/
def backoff_of_attempt (_attempt : ℕ) (factor : ℚ) : ℕ :=
  backoff_millis factor

/-- C3: for every locator, `fetch` makes at most 3 attempts total (its
result depends only on the first three transport outcomes); a transport
failing exactly twice then succeeding yields the third attempt's
document after exactly 3 attempts; an always-failing transport yields
the terminal failure after exactly 3 attempts. -/
theorem C3_retry_bound (Page : Type) (t t2 : Nat → Except Unit Page) (p : Page) :
    (t 0 = .error () → t 1 = .error () → t 2 = .ok p →
      get_page t = .ok p ∧ get_pageCalls t = 3) ∧
    ((∀ i, i < 3 → t i = .error ()) → get_page t = .error () ∧ get_pageCalls t = 3) ∧
    ((∀ i, i < 3 → t i = t2 i) → get_page t = get_page t2) := by
  refine ⟨?_, ?_, ?_⟩
  · intro h0 h1 h2
    simp [get_page, get_pageCalls, get_pageLoop, h0, h1, h2]
  · intro h
    simp [get_page, get_pageCalls, get_pageLoop,
      h 0 (by omega), h 1 (by omega), h 2 (by omega)]
  · intro h
    simp [get_page, get_pageLoop, h 0 (by omega), h 1 (by omega), h 2 (by omega)]

/-- Transport that fails exactly twice, then succeeds. -/
def transportTwiceFailing : Nat → Except Unit String :=
  fun i => if i < 2 then .error () else .ok "doc"

/-- Transport that always fails. -/
def transportAlwaysFailing : Nat → Except Unit String :=
  fun _ => .error ()

/-- C3 witness: on a transport failing exactly twice, `get_page`
returns the third attempt's document after 3 attempts; on an
always-failing transport it fails after exactly 3 attempts. -/
theorem C3_retry_bound_witness :
    (get_page transportTwiceFailing = .ok "doc" ∧ get_pageCalls transportTwiceFailing = 3) ∧
    (get_page transportAlwaysFailing = .error () ∧ get_pageCalls transportAlwaysFailing = 3) := by
  refine ⟨(C3_retry_bound String transportTwiceFailing transportTwiceFailing "doc").1 rfl rfl rfl,
    (C3_retry_bound String transportAlwaysFailing transportAlwaysFailing "doc").2.1
      (fun i _ => rfl)⟩

/-- C6: when `nodeExists` holds for a candidate at scheduling time, the
scheduler step dispatches no visit and fetches nothing; likewise, a
visit invoked on an already-known identifier returns at once without
fetching or writing (the early-return check at the top of
`Scraper::scrape`). -/
theorem C6_skip_on_known (Page : Type) (pages : Int → Except Unit Page)
    (extract : Page → Except Unit ScrapeRecord) (fail : Nat → Bool) (db : DB) (id : Int)
    (h : has_mathematician db id = true) :
    schedulerStep pages extract fail db id = (db, []) ∧
    scrape pages extract fail db id = ⟨.ok (), db, []⟩ := by
  constructor
  · simp [schedulerStep, h]
  · simp [scrape, h]

/-- Database holding exactly the node row for identifier 42. -/
def dbWith42 : DB := insert_mathematician 42 "Known Node" DB.empty

/-- C6 witness: with node 42 already stored, the scheduler step for
candidate 42 leaves the database unchanged and fetches nothing. -/
theorem C6_skip_on_known_witness :
    schedulerStep (fun _ => (.ok () : Except Unit Unit)) (fun _ => .error ())
      (fun _ => false) dbWith42 42 = (dbWith42, []) :=
  (C6_skip_on_known Unit (fun _ => .ok ()) (fun _ => .error ())
    (fun _ => false) dbWith42 42 rfl).1

/-- C9 counterexample: the claim says the jitter is scaled by the
attempt number, but the source computes the sleep from the sampled
factor alone — with the same draw (15 s) the backoff before attempt 2
and before attempt 4 (attempt indices 0 and 2) is the same 15000 ms. -/
theorem C9_counterexample :
    backoff_of_attempt 0 15 = backoff_of_attempt 2 15 ∧ backoff_of_attempt 0 15 = 15000 := by
  refine ⟨rfl, ?_⟩
  norm_num [backoff_of_attempt, backoff_millis]
  rfl

/-- C9 amended: the backoff before each retry is randomized — uniform
jitter drawn from [10 s, 30 s) — but independent of the attempt number;
its magnitude always lies between 10000 ms (inclusive) and 30000 ms
(exclusive), i.e. seconds to tens of seconds. -/
theorem C9_backoff_amended (attempt : ℕ) (factor : ℚ)
    (h10 : 10 ≤ factor) (h30 : factor < 30) :
    backoff_of_attempt attempt factor = backoff_millis factor ∧
    10000 ≤ backoff_millis factor ∧ backoff_millis factor < 30000 := by
  refine ⟨rfl, ?_, ?_⟩
  · have hf : (10000 : ℤ) ≤ Int.floor ((1000 : ℚ) * factor) := by
      rw [Int.le_floor]
      push_cast
      linarith
    unfold backoff_millis
    omega
  · have hf : Int.floor ((1000 : ℚ) * factor) < 30000 := by
      rw [Int.floor_lt]
      push_cast
      linarith
    unfold backoff_millis
    omega

/-- C9 amended witness: at the concrete draw 15, the backoff is the
same for every attempt and lies within the stated bounds. -/
theorem C9_backoff_amended_witness :
    backoff_of_attempt 0 15 = backoff_millis 15 ∧
    10000 ≤ backoff_millis 15 ∧ backoff_millis 15 < 30000 :=
  C9_backoff_amended 0 15 (by decide) (by decide)

/-- An error escaping the neighbor loop is a neighbor fetch or neighbor
extraction failure — the loop has no other failure mode. -/
theorem visitStudents_error_kind (Page : Type) (pages : Int → Except Unit Page)
    (extract : Page → Except Unit ScrapeRecord) (db : DB) (aid : Int)
    (ss : List Student) (e : VisitError)
    (h : (visitStudents pages extract db aid ss).1 = .error e) :
    e = VisitError.neighborFetch ∨ e = VisitError.neighborExtract := by
  induction ss with
  | nil => simp [visitStudents] at h
  | cons s ss ih =>
    rcases hs : s.id with _ | sid
    · simp only [visitStudents, hs] at h
      exact ih h
    · simp only [visitStudents, hs] at h
      by_cases hc : (has_mathematician db sid && has_advisor_advisee db aid sid) = true
      · rw [if_pos hc] at h
        exact ih h
      · rw [if_neg hc] at h
        rcases hp : pages sid with u | pg
        · simp only [hp] at h
          exact Or.inl (Except.error.inj h).symm
        · simp only [hp] at h
          rcases he : extract pg with u | rec
          · simp only [he] at h
            exact Or.inr (Except.error.inj h).symm
          · simp only [he] at h
            rcases hv : (visitStudents pages extract db aid ss).1 with e2 | l
            · rw [hv] at h
              simp [Except.map] at h
              subst h
              exact ih hv
            · rw [hv] at h
              simp [Except.map] at h

/-- Inserting a node row for an identifier that is not yet present (and
whose key occurs at most once) makes `has_mathematician` true. -/
theorem has_mathematician_after_insert (db : DB) (id : Int) (nm : String)
    (hwf : db.mathematicians.countP (fun r => r.1 == id) ≤ 1)
    (hm : has_mathematician db id = false) :
    has_mathematician (insert_mathematician id nm db) id = true := by
  have hne : db.mathematicians.countP (fun r => r.1 == id) ≠ 1 := by
    intro hc
    rw [has_mathematician, hc] at hm
    simp at hm
  have h0 : db.mathematicians.countP (fun r => r.1 == id) = 0 := by omega
  have hany : db.mathematicians.any (fun r => r.1 == id) = false := by
    rw [List.any_eq_false]
    intro x hx
    have := List.countP_eq_zero.mp h0 x hx
    simpa using this
  rw [has_mathematician, insert_mathematician]
  simp only [hany, Bool.false_eq_true, if_false]
  rw [List.countP_append, h0]
  simp

/-- Fetch oracle for which every page is available. -/
def pagesAllOk : Int → Except Unit Unit := fun _ => .ok ()

/-- Record with name only: no optional attributes, no students. -/
def recNameOnly : ScrapeRecord := ⟨"A", none, none, none, none, []⟩

/-- Extractor returning `recNameOnly` for every page. -/
def extractNameOnly : Unit → Except Unit ScrapeRecord := fun _ => .ok recNameOnly

/-- Statement-failure schedule on which every statement errors. -/
def failAll : Nat → Bool := fun _ => true

/-- Statement-failure schedule on which no statement errors. -/
def failNone : Nat → Bool := fun _ => false

/-- C1 counterexample: visiting identifier 1 on an empty database with
every ingestion statement failing (the first statement of the
transaction errors, so the transaction is rolled back), the visit ends
in `ingest` failure — yet `nodeExists`(1) afterwards is true, because
`Scraper::scrape` inserted the node row on the pool, outside the
transaction, before ingestion began.  This contradicts the claim that
no row of the visit — in particular the Node's own row — is observable. -/
theorem C1_counterexample :
    (scrape pagesAllOk extractNameOnly failAll DB.empty 1).outcome
        = Except.error VisitError.ingest ∧
    has_mathematician (scrape pagesAllOk extractNameOnly failAll DB.empty 1).db 1 = true :=
  ⟨rfl, rfl⟩

/-- C1 amended: when ingestion fails, the transaction is rolled back —
the observable database is exactly the pre-transaction state, i.e. the
initial database plus only the visited node's own row, which
`Scraper::scrape` inserted outside the transaction; consequently a
subsequent `nodeExists` check for the visited identifier returns true,
not false. -/
theorem C1_rollback_outside_node_row (Page : Type) (pages : Int → Except Unit Page)
    (extract : Page → Except Unit ScrapeRecord) (fail : Nat → Bool) (db : DB) (id : Int)
    (hwf : db.mathematicians.countP (fun r => r.1 == id) ≤ 1)
    (h : (scrape pages extract fail db id).outcome = Except.error VisitError.ingest) :
    (∃ nm, (scrape pages extract fail db id).db = insert_mathematician id nm db) ∧
    has_mathematician (scrape pages extract fail db id).db id = true := by
  by_cases hm : has_mathematician db id = true
  · simp [scrape, hm] at h
  · rw [Bool.not_eq_true] at hm
    rcases hp : pages id with u | pg
    · simp [scrape, hm, hp] at h
    · rcases he : extract pg with u | adv
      · simp [scrape, hm, hp, he] at h
      · have key : (scrape pages extract fail db id).db
            = insert_mathematician id adv.name db := by
          rcases hv : (visitStudents pages extract
              (insert_mathematician id adv.name db) id adv.students).1 with e | l
          · simp [scrape, hm, hp, he, hv]
          · rcases hir : insert_record fail (insert_mathematician id adv.name db) id adv
                with u | db2
            · simp [scrape, hm, hp, he, hv, hir]
            · exfalso
              simp [scrape, hm, hp, he, hv, hir] at h
        exact ⟨⟨adv.name, key⟩,
          key ▸ has_mathematician_after_insert db id adv.name hwf hm⟩

/-- C1 amended witness: at the concrete failing ingestion of the
counterexample input, the observable database is the empty database
plus the node row for identifier 1, and `nodeExists`(1) is true. -/
theorem C1_rollback_outside_node_row_witness :
    (∃ nm, (scrape pagesAllOk extractNameOnly failAll DB.empty 1).db
        = insert_mathematician 1 nm DB.empty) ∧
    has_mathematician (scrape pagesAllOk extractNameOnly failAll DB.empty 1).db 1 = true :=
  C1_rollback_outside_node_row Unit pagesAllOk extractNameOnly failAll DB.empty 1
    (by decide) rfl

/-- Fetch oracle on which only identifier 1's page is available. -/
def pagesOnly1 : Int → Except Unit Unit := fun j => if j = 1 then .ok () else .error ()

/-- Record with one identified neighbor stub (id 2) and no optional
attributes. -/
def recOneStudent : ScrapeRecord := ⟨"A", none, none, none, none, [⟨"B", some 2⟩]⟩

/-- Extractor returning `recOneStudent` for every page. -/
def extractOneStudent : Unit → Except Unit ScrapeRecord := fun _ => .ok recOneStudent

/-- C2 counterexample: the visit of identifier 1 is abandoned by fetch
exhaustion on neighbor 2's document — before ingestion — yet storage
has been mutated for the visited identifier: `nodeExists`(1) is true,
because the node row was inserted right after the main extraction,
before the neighbor loop.  This contradicts the claim that such a visit
leaves `nodeExists` false. -/
theorem C2_counterexample :
    (scrape pagesOnly1 extractOneStudent failNone DB.empty 1).outcome
        = Except.error VisitError.neighborFetch ∧
    has_mathematician (scrape pagesOnly1 extractOneStudent failNone DB.empty 1).db 1 = true :=
  ⟨rfl, rfl⟩

/-- C2 amended: a visit abandoned by fetch exhaustion or extraction
failure on the main document leaves storage untouched (`nodeExists`
still false); a visit abandoned by fetch exhaustion or extraction
failure on a neighbor document leaves exactly one mutation — the
visited node's own row, inserted before the neighbor loop — so
`nodeExists` for the visited identifier returns true afterwards. -/
theorem C2_pre_ingest_abandon (Page : Type) (pages : Int → Except Unit Page)
    (extract : Page → Except Unit ScrapeRecord) (fail : Nat → Bool) (db : DB) (id : Int) :
    ((scrape pages extract fail db id).outcome = Except.error VisitError.mainFetch ∨
     (scrape pages extract fail db id).outcome = Except.error VisitError.mainExtract →
      (scrape pages extract fail db id).db = db ∧
      has_mathematician (scrape pages extract fail db id).db id = false) ∧
    ((scrape pages extract fail db id).outcome = Except.error VisitError.neighborFetch ∨
     (scrape pages extract fail db id).outcome = Except.error VisitError.neighborExtract →
      (∃ nm, (scrape pages extract fail db id).db = insert_mathematician id nm db) ∧
      (db.mathematicians.countP (fun r => r.1 == id) ≤ 1 →
        has_mathematician (scrape pages extract fail db id).db id = true)) := by
  by_cases hm : has_mathematician db id = true
  · constructor
    · intro h
      rcases h with h | h <;> simp [scrape, hm] at h
    · intro h
      rcases h with h | h <;> simp [scrape, hm] at h
  · rw [Bool.not_eq_true] at hm
    rcases hp : pages id with u | pg
    · constructor
      · intro _
        simp [scrape, hm, hp]
      · intro h
        rcases h with h | h <;> simp [scrape, hm, hp] at h
    · rcases he : extract pg with u | adv
      · constructor
        · intro _
          simp [scrape, hm, hp, he]
        · intro h
          rcases h with h | h <;> simp [scrape, hm, hp, he] at h
      · rcases hv : (visitStudents pages extract
            (insert_mathematician id adv.name db) id adv.students).1 with e | l
        · have hkind := visitStudents_error_kind Page pages extract
            (insert_mathematician id adv.name db) id adv.students e hv
          constructor
          · intro h
            exfalso
            rcases h with h | h <;> simp [scrape, hm, hp, he, hv] at h <;>
              rcases hkind with rfl | rfl <;> simp at h
          · intro _
            refine ⟨⟨adv.name, by simp [scrape, hm, hp, he, hv]⟩, fun hwf => ?_⟩
            have key : (scrape pages extract fail db id).db
                = insert_mathematician id adv.name db := by
              simp [scrape, hm, hp, he, hv]
            exact key ▸ has_mathematician_after_insert db id adv.name hwf hm
        · rcases hir : insert_record fail (insert_mathematician id adv.name db) id adv
              with u | db2
          · constructor
            · intro h
              rcases h with h | h <;> simp [scrape, hm, hp, he, hv, hir] at h
            · intro h
              rcases h with h | h <;> simp [scrape, hm, hp, he, hv, hir] at h
          · constructor
            · intro h
              rcases h with h | h <;> simp [scrape, hm, hp, he, hv, hir] at h
            · intro h
              rcases h with h | h <;> simp [scrape, hm, hp, he, hv, hir] at h

/-- C2 amended witness: main-document fetch exhaustion for identifier 2
(whose page is unavailable) leaves the empty database untouched, and
the neighbor-abandoned visit of identifier 1 leaves exactly the node
row for 1. -/
theorem C2_pre_ingest_abandon_witness :
    ((scrape pagesOnly1 extractOneStudent failNone DB.empty 2).db = DB.empty ∧
      has_mathematician (scrape pagesOnly1 extractOneStudent failNone DB.empty 2).db 2
        = false) ∧
    ((∃ nm, (scrape pagesOnly1 extractOneStudent failNone DB.empty 1).db
        = insert_mathematician 1 nm DB.empty) ∧
      has_mathematician (scrape pagesOnly1 extractOneStudent failNone DB.empty 1).db 1
        = true) := by
  constructor
  · exact (C2_pre_ingest_abandon Unit pagesOnly1 extractOneStudent failNone DB.empty 2).1
      (Or.inl rfl)
  · have h := (C2_pre_ingest_abandon Unit pagesOnly1 extractOneStudent failNone
      DB.empty 1).2 (Or.inl rfl)
    exact ⟨h.1, h.2 (by decide)⟩

/-- C4: during a visit, a neighbor stub carrying an identifier is
skipped — the loop continues exactly as if the stub were not there,
performing no fetch for it — precisely when both `nodeExists(neighbor)`
and `edgeExists(current, neighbor)` hold; when either is false, the
neighbor's own page is fetched (its identifier heads the fetch trace
for this stub, followed by extraction of the fetched page). -/
theorem C4_neighbor_skip_iff (Page : Type) (pages : Int → Except Unit Page)
    (extract : Page → Except Unit ScrapeRecord) (db : DB) (aid : Int)
    (s : Student) (ss : List Student) (sid : Int) (hid : s.id = some sid) :
    ((has_mathematician db sid && has_advisor_advisee db aid sid) = true →
      visitStudents pages extract db aid (s :: ss)
        = visitStudents pages extract db aid ss) ∧
    ((has_mathematician db sid && has_advisor_advisee db aid sid) = false →
      ∃ rest, (visitStudents pages extract db aid (s :: ss)).2 = sid :: rest) := by
  constructor
  · intro hc
    simp [visitStudents, hid, hc]
  · intro hc
    rcases hp : pages sid with u | pg
    · exact ⟨[], by simp [visitStudents, hid, hc, hp]⟩
    · rcases he : extract pg with u | rec
      · exact ⟨[], by simp [visitStudents, hid, hc, hp, he]⟩
      · exact ⟨(visitStudents pages extract db aid ss).2,
          by simp [visitStudents, hid, hc, hp, he]⟩

/-- Database holding node 2 and the edge (1, 2). -/
def dbNode2Edge12 : DB := insert_adivsor_relation 1 2 (insert_mathematician 2 "B" DB.empty)

/-- The neighbor stub for identifier 2. -/
def studentB : Student := ⟨"B", some 2⟩

/-- C4 witness: with node 2 and edge (1,2) stored, the stub for 2 is
skipped (the loop result equals the loop without the stub); on the
empty database the stub for 2 is fetched (2 heads the fetch trace). -/
theorem C4_neighbor_skip_iff_witness :
    visitStudents pagesAllOk extractNameOnly dbNode2Edge12 1 [studentB]
      = visitStudents pagesAllOk extractNameOnly dbNode2Edge12 1 [] ∧
    ∃ rest, (visitStudents pagesAllOk extractNameOnly DB.empty 1 [studentB]).2
      = 2 :: rest :=
  ⟨(C4_neighbor_skip_iff Unit pagesAllOk extractNameOnly dbNode2Edge12 1
      studentB [] 2 rfl).1 rfl,
   (C4_neighbor_skip_iff Unit pagesAllOk extractNameOnly DB.empty 1
      studentB [] 2 rfl).2 rfl⟩

/-- C10: the committed rows of a visit depend only on the record
extracted from the visited node's own document.  Two executions that
agree on the main document and in which the neighbor loop does not fail
(no neighbor fetch exhaustion, no neighbor extraction failure) produce
the same database and the same outcome, whatever the neighbor
documents contain — the records extracted from neighbor pages are
never passed to ingestion. -/
theorem C10_neighbor_noninterference (Page : Type)
    (pages1 pages2 : Int → Except Unit Page)
    (extract : Page → Except Unit ScrapeRecord) (fail : Nat → Bool) (db : DB) (id : Int)
    (hmain : pages1 id = pages2 id)
    (h1f : (scrape pages1 extract fail db id).outcome ≠ Except.error VisitError.neighborFetch)
    (h1e : (scrape pages1 extract fail db id).outcome ≠ Except.error VisitError.neighborExtract)
    (h2f : (scrape pages2 extract fail db id).outcome ≠ Except.error VisitError.neighborFetch)
    (h2e : (scrape pages2 extract fail db id).outcome ≠ Except.error VisitError.neighborExtract) :
    (scrape pages1 extract fail db id).db = (scrape pages2 extract fail db id).db ∧
    (scrape pages1 extract fail db id).outcome = (scrape pages2 extract fail db id).outcome := by
  by_cases hm : has_mathematician db id = true
  · simp [scrape, hm]
  · rw [Bool.not_eq_true] at hm
    rcases hp : pages2 id with u | pg
    · rw [hp] at hmain
      simp [scrape, hm, hp, hmain]
    · rw [hp] at hmain
      rcases he : extract pg with u | adv
      · simp [scrape, hm, hp, hmain, he]
      · rcases hv1 : (visitStudents pages1 extract
            (insert_mathematician id adv.name db) id adv.students).1 with e1 | l1
        · exfalso
          rcases visitStudents_error_kind Page pages1 extract
              (insert_mathematician id adv.name db) id adv.students e1 hv1 with rfl | rfl
          · exact h1f (by simp [scrape, hm, hmain, he, hv1])
          · exact h1e (by simp [scrape, hm, hmain, he, hv1])
        · rcases hv2 : (visitStudents pages2 extract
              (insert_mathematician id adv.name db) id adv.students).1 with e2 | l2
          · exfalso
            rcases visitStudents_error_kind Page pages2 extract
                (insert_mathematician id adv.name db) id adv.students e2 hv2 with rfl | rfl
            · exact h2f (by simp [scrape, hm, hp, he, hv2])
            · exact h2e (by simp [scrape, hm, hp, he, hv2])
          · simp [scrape, hm, hp, hmain, he, hv1, hv2]
            rcases hir : insert_record fail (insert_mathematician id adv.name db) id adv
                with u | db2 <;> simp [hir]

/-- Fetch oracle whose page for identifier `j` is the value `j`. -/
def pagesIdent : Int → Except Unit Int := fun j => .ok j

/-- Fetch oracle agreeing with `pagesIdent` on identifier 1 but serving
a different document (99) for every other identifier. -/
def pagesAlt : Int → Except Unit Int := fun j => if j = 1 then .ok 1 else .ok 99

/-- Extractor over integer documents: document 1 is the main record
with one neighbor stub, any other document extracts to a bare record. -/
def extractInt : Int → Except Unit ScrapeRecord :=
  fun p => if p = 1 then .ok recOneStudent else .ok recNameOnly

/-- C10 witness: the two fetch oracles serve different documents for
neighbor 2 (2 versus 99) but the same main document for identifier 1;
both visits succeed and commit identical rows. -/
theorem C10_neighbor_noninterference_witness :
    (scrape pagesIdent extractInt failNone DB.empty 1).db
      = (scrape pagesAlt extractInt failNone DB.empty 1).db ∧
    (scrape pagesIdent extractInt failNone DB.empty 1).outcome
      = (scrape pagesAlt extractInt failNone DB.empty 1).outcome :=
  C10_neighbor_noninterference Int pagesIdent pagesAlt extractInt failNone DB.empty 1
    rfl (by decide) (by decide) (by decide) (by decide)

/-- A transaction run that returns `ok` applied every statement: the
final state is the fold of the statement list. -/
theorem runStmts_ok (fail : Nat → Bool) (fs : List (DB → DB)) (c : Nat) (d : DB)
    (c2 : Nat) (d2 : DB) (h : runStmts fail fs c d = .ok (c2, d2)) :
    d2 = fs.foldl (fun d f => f d) d := by
  induction fs generalizing c d with
  | nil =>
    simp [runStmts] at h
    simp [h.2]
  | cons f fs ih =>
    rw [runStmts] at h
    by_cases hf : fail c = true
    · rw [if_pos hf] at h
      simp at h
    · rw [if_neg hf] at h
      simpa using ih (c + 1) (f d) h

/-- With a never-failing schedule the transaction run succeeds and the
final state is the fold of the statement list. -/
theorem runStmts_false (fs : List (DB → DB)) (c : Nat) (d : DB) :
    runStmts (fun _ => false) fs c d = .ok (c + fs.length, fs.foldl (fun d f => f d) d) := by
  induction fs generalizing c d with
  | nil => simp [runStmts]
  | cons f fs ih =>
    rw [runStmts, if_neg (by simp)]
    rw [ih (c + 1) (f d)]
    simp
    omega

/-- A successful `insert_record` commits exactly the pure fold of its
statements. -/
theorem insert_record_ok_eq (fail : Nat → Bool) (db : DB) (aid : Int) (adv : ScrapeRecord)
    (db2 : DB) (h : insert_record fail db aid adv = .ok db2) :
    db2 = ingestPure aid adv db := by
  rw [insert_record] at h
  rcases hr : runStmts fail (recordStmts aid adv) 0 db with u | pr
  · rw [hr] at h
    simp [Except.map] at h
  · rw [hr] at h
    simp [Except.map] at h
    rw [← h]
    exact runStmts_ok fail (recordStmts aid adv) 0 db pr.1 pr.2 (by rw [hr])

/-- With a never-failing schedule `insert_record` succeeds and commits
the pure fold of its statements. -/
theorem insert_record_false (db : DB) (aid : Int) (adv : ScrapeRecord) :
    insert_record (fun _ => false) db aid adv = .ok (ingestPure aid adv db) := by
  rw [insert_record, runStmts_false]
  rfl

/-- Node insert leaves the edge table unchanged. -/
theorem insert_mathematician_edges (i : Int) (nm : String) (d : DB) :
    (insert_mathematician i nm d).advisor_relations = d.advisor_relations := rfl

/-- School insert leaves the edge table unchanged. -/
theorem insert_school_edges (s : String) (d : DB) :
    (insert_school s d).advisor_relations = d.advisor_relations := rfl

/-- Country insert leaves the edge table unchanged. -/
theorem insert_country_edges (c : String) (d : DB) :
    (insert_country c d).advisor_relations = d.advisor_relations := rfl

/-- School-location insert leaves the edge table unchanged. -/
theorem insert_school_location_edges (s c : String) (d : DB) :
    (insert_school_location s c d).advisor_relations = d.advisor_relations := rfl

/-- Dissertation insert leaves the edge table unchanged. -/
theorem insert_dissertation_edges (t : String) (a : Int) (d : DB) :
    (insert_dissertation t a d).advisor_relations = d.advisor_relations := rfl

/-- Graduation-record insert leaves the edge table unchanged. -/
theorem insert_graduation_row_edges (m : Int) (s : String) (y : Nat) (d : DB) :
    (insert_graduation_row m s y d).advisor_relations = d.advisor_relations := rfl

/-- The statements before the student loop never touch the edge table. -/
theorem preStmts_foldl_edges (aid : Int) (adv : ScrapeRecord) (d : DB) :
    (((preStmts aid adv).foldl (fun d f => f d) d)).advisor_relations
      = d.advisor_relations := by
  rcases hc : adv.country with _ | co <;> rcases hd : adv.dissertation with _ | t <;>
    rcases hs : adv.school with _ | sc <;> rcases hy : adv.year with _ | y <;>
      simp [preStmts, hc, hd, hs, hy, insert_mathematician_edges, insert_school_edges,
        insert_country_edges, insert_school_location_edges, insert_dissertation_edges,
        insert_graduation_row_edges]

/-- Rows of the edge table after an edge insert: the old rows plus
possibly the inserted pair. -/
theorem mem_insert_adivsor_relation (a b : Int) (d : DB) (e : Int × Int)
    (h : e ∈ (insert_adivsor_relation a b d).advisor_relations) :
    e ∈ d.advisor_relations ∨ e = (a, b) := by
  rw [insert_adivsor_relation] at h
  by_cases hany : d.advisor_relations.any (fun r => r == (a, b)) = true
  · rw [if_pos hany] at h
    exact Or.inl h
  · rw [if_neg hany] at h
    simp only [List.mem_append, List.mem_singleton] at h
    exact h

/-- Inserting an edge whose pair occurs at most once yields exactly one
row for that pair: either the conflict-skip leaves the single existing
row, or the append creates the first one. -/
theorem edgeCount_insert_hit (a b : Int) (d : DB) (h : edgeCount d a b ≤ 1) :
    edgeCount (insert_adivsor_relation a b d) a b = 1 := by
  rw [edgeCount, insert_adivsor_relation]
  by_cases hany : d.advisor_relations.any (fun r => r == (a, b)) = true
  · rw [if_pos hany]
    rcases List.any_eq_true.mp hany with ⟨x, hx, hxe⟩
    have hpos : 0 < d.advisor_relations.countP (fun r => r == (a, b)) :=
      List.countP_pos_iff.mpr ⟨x, hx, hxe⟩
    rw [edgeCount] at h
    exact Nat.le_antisymm h hpos
  · rw [if_neg hany]
    have h0 : d.advisor_relations.countP (fun r => r == (a, b)) = 0 := by
      rw [List.countP_eq_zero]
      intro x hx
      exact fun hxe => hany (List.any_eq_true.mpr ⟨x, hx, hxe⟩)
    rw [List.countP_append, h0]
    simp

/-- Inserting a different pair does not change the count of a pair. -/
theorem edgeCount_insert_other (a b x y : Int) (d : DB) (h : ¬(a = x ∧ b = y)) :
    edgeCount (insert_adivsor_relation a b d) x y = edgeCount d x y := by
  rw [edgeCount, edgeCount, insert_adivsor_relation]
  by_cases hany : d.advisor_relations.any (fun r => r == (a, b)) = true
  · rw [if_pos hany]
  · rw [if_neg hany, List.countP_append]
    have : (((a, b) : Int × Int) == (x, y)) = false := by
      rw [beq_eq_false_iff_ne]
      intro hc
      exact h ⟨congrArg Prod.fst hc, congrArg Prod.snd hc⟩
    simp [List.countP_cons, this]

/-- An edge insert keeps a pair's count at one. -/
theorem edgeCount_insert_keep (a b x y : Int) (d : DB) (h : edgeCount d x y = 1) :
    edgeCount (insert_adivsor_relation a b d) x y = 1 := by
  by_cases hxy : a = x ∧ b = y
  · rcases hxy with ⟨rfl, rfl⟩
    exact edgeCount_insert_hit a b d (le_of_eq h)
  · rw [edgeCount_insert_other a b x y d hxy]
    exact h

/-- An edge insert keeps a pair's count at most one. -/
theorem edgeCount_insert_le (a b x y : Int) (d : DB) (h : edgeCount d x y ≤ 1) :
    edgeCount (insert_adivsor_relation a b d) x y ≤ 1 := by
  by_cases hxy : a = x ∧ b = y
  · rcases hxy with ⟨rfl, rfl⟩
    exact le_of_eq (edgeCount_insert_hit a b d h)
  · rw [edgeCount_insert_other a b x y d hxy]
    exact h

/-- The student loop keeps a pair's count at one. -/
theorem studentStmts_foldl_keep (aid sid : Int) (ss : List Student) (d : DB)
    (h : edgeCount d aid sid = 1) :
    edgeCount ((studentStmts aid ss).foldl (fun d f => f d) d) aid sid = 1 := by
  induction ss generalizing d with
  | nil => simpa [studentStmts] using h
  | cons s ss ih =>
    rcases hs : s.id with _ | sid2
    · rw [studentStmts, hs]
      exact ih d h
    · rw [studentStmts, hs]
      simp only [List.foldl_cons]
      apply ih
      apply edgeCount_insert_keep
      rw [edgeCount, insert_mathematician_edges, ← edgeCount]
      exact h

/-- The student loop keeps a pair's count at most one. -/
theorem studentStmts_foldl_le (aid sid : Int) (ss : List Student) (d : DB)
    (h : edgeCount d aid sid ≤ 1) :
    edgeCount ((studentStmts aid ss).foldl (fun d f => f d) d) aid sid ≤ 1 := by
  induction ss generalizing d with
  | nil => simpa [studentStmts] using h
  | cons s ss ih =>
    rcases hs : s.id with _ | sid2
    · rw [studentStmts, hs]
      exact ih d h
    · rw [studentStmts, hs]
      simp only [List.foldl_cons]
      apply ih
      apply edgeCount_insert_le
      rw [edgeCount, insert_mathematician_edges, ← edgeCount]
      exact h

/-- When the student list contains a stub with the given identifier,
the student loop leaves exactly one row for the corresponding pair. -/
theorem studentStmts_foldl_hit (aid sid : Int) (ss : List Student) (d : DB)
    (h : edgeCount d aid sid ≤ 1) (hmem : ∃ s ∈ ss, s.id = some sid) :
    edgeCount ((studentStmts aid ss).foldl (fun d f => f d) d) aid sid = 1 := by
  induction ss generalizing d with
  | nil => simp at hmem
  | cons s ss ih =>
    rcases hmem with ⟨s0, hmem0, hs0⟩
    rcases List.mem_cons.mp hmem0 with rfl | hmem1
    · rw [studentStmts, hs0]
      simp only [List.foldl_cons]
      apply studentStmts_foldl_keep
      apply edgeCount_insert_hit
      rw [edgeCount, insert_mathematician_edges, ← edgeCount]
      exact h
    · rcases hs : s.id with _ | sid2
      · rw [studentStmts, hs]
        exact ih d h ⟨s0, hmem1, hs0⟩
      · rw [studentStmts, hs]
        simp only [List.foldl_cons]
        apply ih
        · apply edgeCount_insert_le
          rw [edgeCount, insert_mathematician_edges, ← edgeCount]
          exact h
        · exact ⟨s0, hmem1, hs0⟩

/-- The full ingestion fold splits into its pre-student part and the
student loop (the trailing commit statement is the identity). -/
theorem ingestPure_decomp (aid : Int) (adv : ScrapeRecord) (db : DB) :
    ingestPure aid adv db
      = (studentStmts aid adv.students).foldl (fun d f => f d)
          ((preStmts aid adv).foldl (fun d f => f d) db) := by
  rw [ingestPure, recordStmts]
  rw [List.foldl_append, List.foldl_append]
  rfl

/-- One full ingestion of a record containing the advisee stub yields
exactly one row for the pair. -/
theorem ingestPure_edge_hit (aid sid : Int) (adv : ScrapeRecord) (db : DB)
    (h : edgeCount db aid sid ≤ 1) (hmem : ∃ s ∈ adv.students, s.id = some sid) :
    edgeCount (ingestPure aid adv db) aid sid = 1 := by
  rw [ingestPure_decomp]
  apply studentStmts_foldl_hit
  · rw [edgeCount, preStmts_foldl_edges, ← edgeCount]
    exact h
  · exact hmem

/-- A full ingestion keeps a pair's count at one. -/
theorem ingestPure_edge_keep (aid sid : Int) (adv : ScrapeRecord) (db : DB)
    (h : edgeCount db aid sid = 1) :
    edgeCount (ingestPure aid adv db) aid sid = 1 := by
  rw [ingestPure_decomp]
  apply studentStmts_foldl_keep
  rw [edgeCount, preStmts_foldl_edges, ← edgeCount]
  exact h

/-- Repeating a successful ingestion keeps a pair's count at one. -/
theorem ingestN_keep (aid sid : Int) (adv : ScrapeRecord) (m : Nat) (db : DB)
    (h : edgeCount db aid sid = 1) :
    ∃ db2, ingestN (fun _ => false) aid adv m db = Except.ok db2 ∧
      edgeCount db2 aid sid = 1 := by
  induction m generalizing db with
  | zero => exact ⟨db, rfl, h⟩
  | succ m ih =>
    rw [ingestN, insert_record_false]
    exact ih (ingestPure aid adv db) (ingestPure_edge_keep aid sid adv db h)

/-- C5: ingestion is idempotent on edges.  For a record containing a
neighbor stub with identifier `sid`, running `ingest` (with no database
failures) any positive number of times from a state in which the
`(aid, sid)` pair occurs at most once leaves exactly one row for the
pair in `advisor_relations`, and every run returns `ok` — the
conflict-skip insert never raises a duplicate-key error. -/
theorem C5_edge_idempotent (db : DB) (aid : Int) (adv : ScrapeRecord) (sid : Int) (n : Nat)
    (hmem : ∃ s ∈ adv.students, s.id = some sid)
    (hwf : edgeCount db aid sid ≤ 1) (hn : 1 ≤ n) :
    ∃ db2, ingestN (fun _ => false) aid adv n db = Except.ok db2 ∧
      edgeCount db2 aid sid = 1 := by
  obtain ⟨m, rfl⟩ : ∃ m, n = m + 1 := ⟨n - 1, by omega⟩
  rw [ingestN, insert_record_false]
  exact ingestN_keep aid sid adv m (ingestPure aid adv db)
    (ingestPure_edge_hit aid sid adv db hwf hmem)

/-- C5 witness: ingesting `recOneStudent` three times for advisor 1 on
the empty database succeeds and yields exactly one (1, 2) edge row. -/
theorem C5_edge_idempotent_witness :
    ∃ db2, ingestN (fun _ => false) 1 recOneStudent 3 DB.empty = Except.ok db2 ∧
      edgeCount db2 1 2 = 1 :=
  C5_edge_idempotent DB.empty 1 recOneStudent 2 3
    ⟨⟨"B", some 2⟩, by decide, rfl⟩ (by decide) (by decide)

/-- Stubs without an identifier issue no statements: filtering them out
of the student list leaves the statement sequence unchanged. -/
theorem studentStmts_filter (aid : Int) (ss : List Student) :
    studentStmts aid (ss.filter (fun s => s.id.isSome)) = studentStmts aid ss := by
  induction ss with
  | nil => rfl
  | cons s ss ih =>
    rcases hs : s.id with _ | sid
    · rw [List.filter_cons]
      simp only [hs, Option.isSome_none, Bool.false_eq_true, if_false]
      rw [ih, studentStmts, hs]
    · rw [List.filter_cons]
      simp only [hs, Option.isSome_some, if_true]
      rw [studentStmts, hs, studentStmts, hs, ih]

/-- Every edge row present after the student loop was already present
or is an `(aid, sid)` pair for some identified stub of the list. -/
theorem studentStmts_foldl_mem (aid : Int) (ss : List Student) (d : DB) (e : Int × Int)
    (he : e ∈ ((studentStmts aid ss).foldl (fun d f => f d) d).advisor_relations) :
    e ∈ d.advisor_relations ∨ (e.1 = aid ∧ ∃ s ∈ ss, s.id = some e.2) := by
  induction ss generalizing d with
  | nil => exact Or.inl he
  | cons s ss ih =>
    rcases hs : s.id with _ | sid
    · rw [studentStmts, hs] at he
      rcases ih d he with h | ⟨h1, s0, hmem, hs0⟩
      · exact Or.inl h
      · exact Or.inr ⟨h1, s0, List.mem_cons_of_mem s hmem, hs0⟩
    · rw [studentStmts, hs] at he
      simp only [List.foldl_cons] at he
      rcases ih _ he with h | ⟨h1, s0, hmem, hs0⟩
      · rcases mem_insert_adivsor_relation aid sid (insert_mathematician sid s.name d) e h
            with h2 | rfl
        · rw [insert_mathematician_edges] at h2
          exact Or.inl h2
        · exact Or.inr ⟨rfl, s, List.mem_cons_self s ss, hs⟩
      · exact Or.inr ⟨h1, s0, List.mem_cons_of_mem s hmem, hs0⟩

/-- C8: a neighbor stub without a resolvable identifier produces
nothing during ingestion — removing all such stubs from the record does
not change `insert_record` in any way (same statements, same failure
positions, same committed rows); moreover every edge row of a committed
ingestion either pre-existed or joins the ingested node to the
identifier of one of its identified stubs, so every inserted edge has
identifiers for both endpoints. -/
theorem C8_unidentified_stub (fail : Nat → Bool) (db : DB) (aid : Int) (adv : ScrapeRecord) :
    insert_record fail db aid
        { adv with students := adv.students.filter (fun s => s.id.isSome) }
      = insert_record fail db aid adv ∧
    (∀ db2, insert_record fail db aid adv = Except.ok db2 →
      ∀ e ∈ db2.advisor_relations,
        e ∈ db.advisor_relations ∨ (e.1 = aid ∧ ∃ s ∈ adv.students, s.id = some e.2)) := by
  constructor
  · rw [insert_record, insert_record, recordStmts, recordStmts, preStmts, preStmts]
    rw [studentStmts_filter]
  · intro db2 h e he
    rw [insert_record_ok_eq fail db aid adv db2 h, ingestPure_decomp] at he
    rcases studentStmts_foldl_mem aid adv.students _ e he with h2 | h2
    · rw [preStmts_foldl_edges] at h2
      exact Or.inl h2
    · exact Or.inr h2

/-- Record with one unidentified stub and one identified stub (id 3). -/
def recMixedStudents : ScrapeRecord :=
  ⟨"A", none, none, none, none, [⟨"B", none⟩, ⟨"C", some 3⟩]⟩

/-- C8 witness: filtering the name-only stub out of `recMixedStudents`
leaves ingestion unchanged, and the edge row (1, 3) of the committed
ingestion comes from the identified stub. -/
theorem C8_unidentified_stub_witness :
    insert_record failNone DB.empty 1
        { recMixedStudents with
          students := recMixedStudents.students.filter (fun s => s.id.isSome) }
      = insert_record failNone DB.empty 1 recMixedStudents ∧
    ((1, 3) ∈ DB.empty.advisor_relations ∨
      ((1 : Int) = 1 ∧ ∃ s ∈ recMixedStudents.students, s.id = some (3 : Int))) := by
  refine ⟨(C8_unidentified_stub failNone DB.empty 1 recMixedStudents).1, ?_⟩
  exact (C8_unidentified_stub failNone DB.empty 1 recMixedStudents).2
    (ingestPure 1 recMixedStudents DB.empty) rfl (1, 3) (by decide)

/-- Unfolding of `Parser.scrape` into its three-stage case analysis. -/
theorem Parser.scrape_eq (page : Parser.HNode) :
    Parser.scrape page =
      match Parser.scrape_mathematician page with
      | .error e => .error e
      | .ok m =>
        match Parser.scrape_students page with
        | none => .error .panicked
        | some sids =>
          .ok { mathematician := m
                students_ids := sids
                dissertation := (Parser.scrape_dissertation page).map
                  (fun t => { title := t, author := m })
                graduation_record :=
                  match Parser.parse_school page, Parser.parse_year page with
                  | some (sc, co), some y =>
                      some { mathematician := m, country := co, school := sc, year := y }
                  | _, _ => none } := by
  rw [Parser.scrape]
  cases hsm : Parser.scrape_mathematician page with
  | error e => rfl
  | ok m =>
    cases hss : Parser.scrape_students page with
    | none => rfl
    | some sids => rfl

/-- The country component of a successful school parse is the page's
country parse. -/
theorem Parser.parse_school_country (page : Parser.HNode) (sc : String)
    (co : Option String) (h : Parser.parse_school page = some (sc, co)) :
    co = Parser.parse_country page := by
  rw [Parser.parse_school] at h
  rcases h1 : (Parser.selChild "div" "span" page).head? with _ | sp
  · rw [h1] at h
    exact absurd h (by simp)
  · simp only [h1] at h
    rcases h2 : ((((Parser.texts sp).dropWhile
        (fun t => Parser.rustTrim t ≠ "Ph.D.")).drop 1)).head? with _ | nm
    · rw [h2] at h
      exact absurd h (by simp)
    · simp only [h2] at h
      exact (congrArg Prod.snd (Option.some.inj h)).symm

/-- C7: extraction returns `ExtractionError` exactly when the name is
absent (no `h2` element, or an `h2` without a text node); for a
successfully extracted record, absence of the dissertation section, of
the `div > span` Ph.D. annotation, of a parsable graduation year, of a
parsable school, or of the country flag each yields `none` for the
corresponding optional field rather than an error; and an absent
student table, or a present but empty one (no rows beyond the header,
so dropping the header row leaves nothing), yields the empty neighbor
list rather than an error. -/
theorem C7_extraction_total (page : Parser.HNode) :
    (Parser.scrape page = Except.error Parser.PErr.extraction ↔
      ((Parser.selTag "h2" page).head?.bind (fun h => (Parser.texts h).head?)) = none) ∧
    (∀ r, Parser.scrape page = Except.ok r →
      (Parser.selId "thesisTitle" page = [] → r.dissertation = none) ∧
      (Parser.selChild "div" "span" page = [] → r.graduation_record = none) ∧
      (Parser.parse_year page = none → r.graduation_record = none) ∧
      (Parser.parse_school page = none → r.graduation_record = none) ∧
      (Parser.parse_country page = none →
        ∀ g, r.graduation_record = some g → g.country = none) ∧
      ((Parser.selTag "table" page).head? = none → r.students_ids = []) ∧
      (∀ tbl, (Parser.selTag "table" page).head? = some tbl →
        (Parser.selTag "tr" tbl).drop 1 = [] → r.students_ids = [])) ∧
    ((Parser.selTag "table" page).head? = none → Parser.scrape_students page = some []) ∧
    (∀ tbl, (Parser.selTag "table" page).head? = some tbl →
      (Parser.selTag "tr" tbl).drop 1 = [] → Parser.scrape_students page = some []) := by
  have hC : (Parser.selTag "table" page).head? = none →
      Parser.scrape_students page = some [] := by
    intro h
    rw [Parser.scrape_students, h]
  have hCe : ∀ tbl, (Parser.selTag "table" page).head? = some tbl →
      (Parser.selTag "tr" tbl).drop 1 = [] → Parser.scrape_students page = some [] := by
    intro tbl htbl hrows
    rw [Parser.scrape_students]
    simp only [htbl, hrows]
    rfl
  refine ⟨?_, ?_, hC, hCe⟩
  · rw [Parser.scrape_eq]
    rcases hh : (Parser.selTag "h2" page).head? with _ | hd
    · simp [Parser.scrape_mathematician, hh]
    · rcases ht : (Parser.texts hd).head? with _ | t
      · simp [Parser.scrape_mathematician, hh, ht]
      · rcases hs : Parser.scrape_students page with _ | sids
        · simp [Parser.scrape_mathematician, hh, ht, hs]
        · simp [Parser.scrape_mathematician, hh, ht, hs]
  · intro r hr
    rw [Parser.scrape_eq] at hr
    rcases hm : Parser.scrape_mathematician page with e | m
    · rw [hm] at hr
      exact absurd hr (by simp)
    · simp only [hm] at hr
      rcases hs : Parser.scrape_students page with _ | sids
      · simp only [hs] at hr
        exact absurd hr (by simp)
      · simp only [hs] at hr
        have hrr := (Except.ok.inj hr).symm
        subst hrr
        refine ⟨?_, ?_, ?_, ?_, ?_, ?_, ?_⟩
        · intro h1
          simp [Parser.scrape_dissertation, h1]
        · intro h2
          simp [Parser.parse_school, Parser.parse_year, h2]
        · intro h3
          rcases hps : Parser.parse_school page with _ | p <;> simp [hps, h3]
        · intro h4
          rcases hpy : Parser.parse_year page with _ | y <;> simp [h4, hpy]
        · intro h5 g hg
          rcases hps : Parser.parse_school page with _ | p
          · simp [hps] at hg
          · rcases hpy : Parser.parse_year page with _ | y
            · simp [hps, hpy] at hg
            · rcases p with ⟨sc, co⟩
              simp only [hps, hpy] at hg
              have hco := Parser.parse_school_country page sc co hps
              rw [h5] at hco
              rw [← (Option.some.inj hg)]
              exact hco
        · intro h6
          have h7 := (hC h6).symm.trans hs
          exact (Option.some.inj h7).symm
        · intro tbl htbl hrows
          have h7 := (hCe tbl htbl hrows).symm.trans hs
          exact (Option.some.inj h7).symm

/-- Minimal valid node page: a name heading and nothing else. -/
def pageNameOnly : Parser.HNode := .elem "html" [] [.elem "h2" [] [.text "A"]]

/-- Page with no name heading at all. -/
def pageNoName : Parser.HNode := .elem "html" [] []

/-- The record extracted from `pageNameOnly`. -/
def recParsedNameOnly : Parser.ScrapeRecord := ⟨⟨0, "A"⟩, [], none, none⟩

/-- A student table holding only its header row. -/
def tableHeaderOnly : Parser.HNode :=
  .elem "table" [] [.elem "tr" [] [.elem "td" [] [.text "Name"]]]

/-- Valid node page whose student table is present but empty: only the
header row, no student rows. -/
def pageEmptyTable : Parser.HNode :=
  .elem "html" [] [.elem "h2" [] [.text "A"], tableHeaderOnly]

/-- C7 witness: the nameless page yields exactly `ExtractionError`; the
minimal named page (absent table) and the page with a header-only table
(present but empty) both extract with `none` for the dissertation and
the graduation record and an empty student list, with no error. -/
theorem C7_extraction_total_witness :
    Parser.scrape pageNoName = Except.error Parser.PErr.extraction ∧
    recParsedNameOnly.dissertation = none ∧
    recParsedNameOnly.graduation_record = none ∧
    recParsedNameOnly.students_ids = [] ∧
    Parser.scrape_students pageNameOnly = some [] ∧
    Parser.scrape_students pageEmptyTable = some [] := by
  refine ⟨(C7_extraction_total pageNoName).1.mpr rfl, ?_, ?_, ?_,
    (C7_extraction_total pageNameOnly).2.2.1 rfl,
    (C7_extraction_total pageEmptyTable).2.2.2 tableHeaderOnly rfl rfl⟩
  · exact ((C7_extraction_total pageNameOnly).2.1 recParsedNameOnly rfl).1 rfl
  · exact ((C7_extraction_total pageNameOnly).2.1 recParsedNameOnly rfl).2.1 rfl
  · exact ((C7_extraction_total pageEmptyTable).2.1 recParsedNameOnly
      rfl).2.2.2.2.2.2 tableHeaderOnly rfl rfl
